import Mathlib

/-!
Shallow embedding of the multi-tenant / simple-tenant Cumulocity
microservice template: the tenant registry and its subscription
callbacks, the background processing sweep, the HTTP handlers of
`src/main/multi_tenant.py` and `src/main/simple_tenant.py`, and the
`assert_name` / `write_env` helpers of `tasks.py`.
-/

/-- A managed object (device) as used by the handlers: `d.name`, `d.id`,
`d.type`. -/
structure Device where
  name : String
  id : String
  type : String
deriving DecidableEq

/-- An event returned by `c8y.events.get_all(device_id=...)`. -/
structure CEvent where
  datetime : String
  type : String
  text : String
deriving DecidableEq

/-- Minimal JSON values, enough to express the handlers' response bodies. -/
inductive Json where
  | str (s : String)
  | num (n : Nat)
  | arr (xs : List Json)
  | obj (fields : List (String × Json))

/-- The device inventory API of a tenant-scoped client.  `fetch` models one
round-trip to the platform; `Except.error` models a raised exception. -/
structure DeviceInventory where
  fetch : Except String (List Device)

/-- `device_inventory.get_all()`. -/
def DeviceInventory.get_all (inv : DeviceInventory) : Except String (List Device) :=
  inv.fetch

/-- `device_inventory.get_count()`. -/
def DeviceInventory.get_count (inv : DeviceInventory) : Except String Nat :=
  match inv.fetch with
  | .error e => .error e
  | .ok ds => .ok ds.length

/-- A tenant- or user-scoped `CumulocityApi` client handle. -/
structure Client where
  tenant_id : String
  base_url : String
  username : String
  device_inventory : DeviceInventory

/-- An inbound HTTP request: opaque forwarded headers and cookies. -/
structure Request where
  headers : List (String × String)
  cookies : List (String × String)

/-- JSON rendering of one device, as built by the handlers. -/
def deviceJson (d : Device) : Json :=
  Json.obj [("name", Json.str d.name), ("id", Json.str d.id), ("type", Json.str d.type)]

-- ======================================================================
-- Tenant registry (multi_tenant.py, `subscribed_tenants` and callbacks)
-- ======================================================================

/-- `add_subscriber`: `subscribed_tenants = subscribed_tenants | {tenant}`. -/
def add_subscriber (registry : Finset String) (tenant : String) : Finset String :=
  registry ∪ {tenant}

/-- `remove_subscriber`: `subscribed_tenants = subscribed_tenants - {tenant}`. -/
def remove_subscriber (registry : Finset String) (tenant : String) : Finset String :=
  registry \ {tenant}

/-- One poll of the subscription listener: diff the new poll result against
the previous poll result, dispatch `add_subscriber` for every tenant newly
present and `remove_subscriber` for every tenant newly absent.  The state is
(previous poll result, registry); poll results are lists in platform
iteration order. -/
def listener_step (st : List String × Finset String) (poll : List String) :
    List String × Finset String :=
  let added := poll.filter (fun t => decide (t ∉ st.1))
  let removed := st.1.filter (fun t => decide (t ∉ poll))
  (poll, removed.foldl remove_subscriber (added.foldl add_subscriber st.2))

/-- Run a sequence of polls starting from the empty previous snapshot and the
empty registry (the initial state of `subscribed_tenants`). -/
def run_polls (polls : List (List String)) : List String × Finset String :=
  polls.foldl listener_step ([], ∅)

-- ======================================================================
-- Heap model of the registry mutation (rebinding, not in-place update)
-- ======================================================================

/-- Python-object view of the registry global: `cells` is the heap of set
objects ever allocated (indices are references), `current` is the reference
held by the global name `subscribed_tenants`. -/
structure RegistryHeap where
  cells : List (Finset String)
  current : Nat

/-- `add_subscriber` at the object level: `subscribed_tenants | {tenant}`
allocates a fresh set object and the assignment rebinds the global name to
it; no existing cell is written. -/
def heap_add_subscriber (h : RegistryHeap) (tenant : String) : RegistryHeap :=
  { cells := h.cells ++ [add_subscriber (h.cells.getD h.current ∅) tenant],
    current := h.cells.length }

/-- `remove_subscriber` at the object level, same allocation discipline. -/
def heap_remove_subscriber (h : RegistryHeap) (tenant : String) : RegistryHeap :=
  { cells := h.cells ++ [remove_subscriber (h.cells.getD h.current ∅) tenant],
    current := h.cells.length }

-- ======================================================================
-- Multi-tenant application environment and handlers (multi_tenant.py)
-- ======================================================================

/-- The ambient state of `multi_tenant.py`: the bootstrap client, the global
`subscribed_tenants` (in iteration order) and the `MultiTenantCumulocityApp`
factory methods.  `Except.error` models a raised exception. -/
structure MTEnv where
  bootstrap : Client
  subscribed_tenants : List String
  get_user_instance : Request → Except String Client
  get_tenant_instance_by_request : Request → Except String Client
  get_tenant_instance_by_id : String → Except String Client

/-- Structured log entries of the background sweep and callbacks. -/
inductive LogEntry where
  | processing (tenant : String)
  | deviceCount (tenant : String) (n : Nat)
deriving DecidableEq

/-- Loop body of `process_subscribers`: for each tenant, log, obtain the
tenant instance, count its devices and log the count.  There is no exception
handling in the source, so a raised error ends the loop and propagates
(second component `some e`). -/
def process_subscribers_loop (env : MTEnv) : List String → List LogEntry × Option String
  | [] => ([], none)
  | t :: rest =>
    match env.get_tenant_instance_by_id t with
    | .error e => ([LogEntry.processing t], some e)
    | .ok c =>
      match c.device_inventory.get_count with
      | .error e => ([LogEntry.processing t], some e)
      | .ok n =>
        let r := process_subscribers_loop env rest
        (LogEntry.processing t :: LogEntry.deviceCount t n :: r.1, r.2)

/-- `process_subscribers`: one tick of the background scheduler job. -/
def process_subscribers (env : MTEnv) : List LogEntry × Option String :=
  process_subscribers_loop env env.subscribed_tenants

/-- The combined result of resolving one tenant inside the sweep:
tenant instance then device count. -/
def tenantResult (env : MTEnv) (t : String) : Except String Nat :=
  match env.get_tenant_instance_by_id t with
  | .error e => .error e
  | .ok c => c.device_inventory.get_count

/-- `/tenant` handler (`tenant_info`): resolves the caller's tenant instance
from the request, returns tenant descriptor and device list. -/
def tenant_info (env : MTEnv) (req : Request) : Except String (Nat × Json) :=
  match env.get_tenant_instance_by_request req with
  | .error e => .error e
  | .ok c8y =>
    match c8y.device_inventory.get_all with
    | .error e => .error e
    | .ok devices =>
      let tenant_json := Json.obj [("tenant_id", Json.str c8y.tenant_id),
                                   ("base_url", Json.str c8y.base_url),
                                   ("username", Json.str c8y.username)]
      let devices_json := Json.arr (devices.map deviceJson)
      .ok (200, Json.obj [("tenant", tenant_json), ("devices", devices_json)])

/-- Inner loop of `/subscribers`: per subscribed tenant, obtain the tenant
instance and build the `{tenant_id, base_url, num_devices}` record. -/
def collect_subscribers (env : MTEnv) : List String → Except String (List Json)
  | [] => .ok []
  | tenant_id :: rest =>
    match env.get_tenant_instance_by_id tenant_id with
    | .error e => .error e
    | .ok c =>
      match c.device_inventory.get_count with
      | .error e => .error e
      | .ok n =>
        match collect_subscribers env rest with
        | .error e => .error e
        | .ok tail =>
          .ok (Json.obj [("tenant_id", Json.str c.tenant_id),
                         ("base_url", Json.str c.base_url),
                         ("num_devices", Json.num n)] :: tail)

/-- `/subscribers` handler (`subscriber_info`).  The source checks the
caller's tenant against the bootstrap tenant but the `return` keyword is
missing before `jsonify(...), 403`: the 403 response is constructed and
discarded, and execution falls through to the listing.  The discarded value
is kept here as `_forbidden` to mirror that evaluation. -/
def subscriber_info (env : MTEnv) (req : Request) : Except String (Nat × Json) :=
  match env.get_user_instance req with
  | .error e => .error e
  | .ok c8y =>
    let _forbidden : Option (Nat × Json) :=
      if c8y.tenant_id ≠ env.bootstrap.tenant_id then
        some (403, Json.obj [("error", Json.str "Only allowed for the provider tenant.")])
      else none
    match collect_subscribers env env.subscribed_tenants with
    | .error e => .error e
    | .ok subs => .ok (200, Json.obj [("subscribers", Json.arr subs)])

namespace MultiTenant

/-- `/user` handler of `multi_tenant.py` (`user_info`): resolves the user
instance from the request and returns its username and device list. -/
def user_info (env : MTEnv) (req : Request) : Except String (Nat × Json) :=
  match env.get_user_instance req with
  | .error e => .error e
  | .ok c8y =>
    match c8y.device_inventory.get_all with
    | .error e => .error e
    | .ok devices =>
      .ok (200, Json.obj [("username", Json.str c8y.username),
                          ("devices", Json.arr (devices.map deviceJson))])

end MultiTenant

-- ======================================================================
-- Simple-tenant application environment and handlers (simple_tenant.py)
-- ======================================================================

/-- The ambient state of `simple_tenant.py`: the module-level service client
`c8y` (a `SimpleCumulocityApp`), its user-instance resolver, the device
inventory lookup (where `none` models a raised `KeyError`) and the events
API. -/
structure STEnv where
  c8y : Client
  get_user_instance : Request → Except String Client
  inventory_get : String → Option Device
  events_get_all : String → List CEvent

/-- External API calls observable from a handler run. -/
inductive ApiCall where
  | inventoryGet (id : String)
  | eventsGetAll (id : String)
deriving DecidableEq

namespace SimpleTenant

/-- `/user` handler of `simple_tenant.py` (`user_info`).  The source resolves
`user_c8y = c8y.get_user_instance(...)` but then reads `c8y.username` and
`c8y.device_inventory` — the module-level service client, not the resolved
user instance.  The binding is kept (a resolution failure still propagates)
but, as in the source, its value is unused. -/
def user_info (env : STEnv) (req : Request) : Except String (Nat × Json) :=
  match env.get_user_instance req with
  | .error e => .error e
  | .ok _user_c8y =>
    match env.c8y.device_inventory.get_all with
    | .error e => .error e
    | .ok devices =>
      .ok (200, Json.obj [("username", Json.str env.c8y.username),
                          ("devices", Json.arr (devices.map deviceJson))])

/-- `/events/<device_id>` handler (`event_info`): probes the inventory for
the device (404 on `KeyError`), otherwise lists the device's events.  The
second component records the external API calls actually made. -/
def event_info (env : STEnv) (device_id : String) : (Nat × Json) × List ApiCall :=
  match env.inventory_get device_id with
  | none =>
    ((404, Json.obj [("error", Json.str ("No such device: " ++ device_id))]),
     [ApiCall.inventoryGet device_id])
  | some _ =>
    let events := env.events_get_all device_id
    ((200, Json.obj [("events", Json.arr (events.map fun e =>
        Json.obj [("datetime", Json.str e.datetime),
                  ("type", Json.str e.type),
                  ("text", Json.str e.text)]))]),
     [ApiCall.inventoryGet device_id, ApiCall.eventsGetAll device_id])

end SimpleTenant

-- ======================================================================
-- tasks.py: assert_name and write_env
-- ======================================================================

/-- Character class `[a-zA-Z]` of the validation pattern. -/
def isAlphaChar (c : Char) : Bool :=
  (decide ('a' ≤ c) && decide (c ≤ 'z')) || (decide ('A' ≤ c) && decide (c ≤ 'Z'))

/-- Character class `[a-zA-Z0-9\-]` of the validation pattern. -/
def isNameTailChar (c : Char) : Bool :=
  isAlphaChar c || (decide ('0' ≤ c) && decide (c ≤ '9')) || decide (c = '-')

/-- All ways to split a list into a prefix and the rest. -/
def splitsOf : List Char → List (List Char × List Char)
  | [] => [([], [])]
  | c :: cs => ([], c :: cs) :: (splitsOf cs).map (fun p => (c :: p.1, p.2))

/-- `re.match(r'[a-zA-Z]+[a-zA-Z0-9\-]+', name)` semantics: some prefix of
the string splits into a nonempty run of letters followed by a nonempty run
of letters, digits or dashes.  The pattern is anchored at the start only. -/
def re_match_name (name : String) : Bool :=
  (splitsOf name.data).any fun p =>
    (!p.1.isEmpty) && p.1.all isAlphaChar &&
      ((splitsOf p.2).any fun q => (!q.1.isEmpty) && q.1.all isNameTailChar)

/-- `assert_name`: exits with code 2 when the pattern does not match. -/
def assert_name (name : String) : Except Nat Unit :=
  if re_match_name name then .ok () else .error 2

/-- The file content written by `write_env` (the four f-string lines). -/
def write_env_content (isolation base_url tenant user password : String) : String :=
  let bootstrap := if isolation = "MULTI_TENANT" then "BOOTSTRAP_" else ""
  "C8Y_BASEURL=" ++ base_url ++ "\n" ++
  "C8Y_" ++ bootstrap ++ "TENANT=" ++ tenant ++ "\n" ++
  "C8Y_" ++ bootstrap ++ "USER=" ++ user ++ "\n" ++
  "C8Y_" ++ bootstrap ++ "PASSWORD=" ++ password ++ "\n"

/-- The encoding `write_env` opens the file with. -/
def write_env_encoding : String := "UTF-8"

/-- Number of newline characters in a string. -/
def countNewlines (s : String) : Nat :=
  s.data.count (Char.ofNat 10)

/-- A file consisting of exactly four newline-terminated lines, the i-th
being `KEYi=VALUEi` with the value inserted verbatim. -/
def FourEnvLines (k1 v1 k2 v2 k3 v3 k4 v4 content : String) : Prop :=
  content = (k1 ++ "=" ++ v1) ++ "\n" ++ (k2 ++ "=" ++ v2) ++ "\n" ++
            (k3 ++ "=" ++ v3) ++ "\n" ++ (k4 ++ "=" ++ v4) ++ "\n" ∧
  countNewlines (k1 ++ "=" ++ v1) = 0 ∧ countNewlines (k2 ++ "=" ++ v2) = 0 ∧
  countNewlines (k3 ++ "=" ++ v3) = 0 ∧ countNewlines (k4 ++ "=" ++ v4) = 0

-- ======================================================================
-- Concrete fixtures used by counterexamples and witnesses
-- ======================================================================

/-- An inventory whose fetch succeeds with the given devices. -/
def invOk (ds : List Device) : DeviceInventory := ⟨Except.ok ds⟩

/-- The mock device of the spec example. -/
def d1 : Device := ⟨"d1", "1", "thermostat"⟩

/-- An arbitrary inbound request. -/
def req0 : Request := ⟨[], []⟩

/-- The bootstrap client of the concrete environments. -/
def bootClient : Client := ⟨"t-boot", "https://boot.example.com", "svc-user", invOk [d1]⟩

/-- A user-scoped client from a tenant other than the bootstrap tenant. -/
def otherUser : Client := ⟨"t-other", "https://other.example.com", "alice", invOk []⟩

/-- Environment for the `/subscribers` check: the caller resolves to a
non-provider tenant while one tenant is subscribed. -/
def envC1 : MTEnv :=
  { bootstrap := bootClient
    subscribed_tenants := ["t-sub"]
    get_user_instance := fun _ => Except.ok otherUser
    get_tenant_instance_by_request := fun _ => Except.error "unused"
    get_tenant_instance_by_id := fun tid =>
      Except.ok ⟨tid, "https://sub.example.com", "svc", invOk [d1]⟩ }

/-- Environment for the sweep check: obtaining the client of the first
subscribed tenant raises, the second tenant is healthy. -/
def envC2 : MTEnv :=
  { bootstrap := bootClient
    subscribed_tenants := ["tA", "tB"]
    get_user_instance := fun _ => Except.error "unused"
    get_tenant_instance_by_request := fun _ => Except.error "unused"
    get_tenant_instance_by_id := fun tid =>
      if tid = "tA" then Except.error "network"
      else Except.ok ⟨tid, "https://sub.example.com", "svc", invOk [d1]⟩ }

/-- The module-level service client of the simple-tenant fixture. -/
def serviceClient : Client :=
  ⟨"t1", "https://one.example.com", "service-user", invOk [⟨"sd", "9", "gateway"⟩]⟩

/-- The user-scoped client the request credentials resolve to. -/
def aliceClient : Client := ⟨"t1", "https://one.example.com", "alice", invOk [d1]⟩

/-- Environment for the simple-tenant `/user` check: the request resolves to
`aliceClient`, distinct from the service identity. -/
def envC4 : STEnv :=
  ⟨serviceClient, fun _ => Except.ok aliceClient, fun _ => none, fun _ => []⟩

/-- Environment for the `/tenant` check: the caller credentials resolve to
tenant `t42` holding the spec example inventory. -/
def envC5 : MTEnv :=
  { bootstrap := bootClient
    subscribed_tenants := []
    get_user_instance := fun _ => Except.error "unused"
    get_tenant_instance_by_request := fun _ =>
      Except.ok ⟨"t42", "https://t42.example.com", "jdoe", invOk [d1]⟩
    get_tenant_instance_by_id := fun _ => Except.error "unused" }

/-- A sample event. -/
def ev1 : CEvent := ⟨"2024-01-01T00:00:00Z", "c8y_Alarm", "hello"⟩

/-- Environment where the inventory lookup raises `KeyError` for every id. -/
def env404 : STEnv :=
  ⟨serviceClient, fun _ => Except.error "unused", fun _ => none, fun _ => [ev1]⟩

/-- Environment where the inventory lookup finds `d1` and the device has one
event. -/
def envC10 : STEnv :=
  ⟨serviceClient, fun _ => Except.error "unused", fun _ => some d1, fun _ => [ev1]⟩

/-- A concrete registry heap: one allocated set object, referenced. -/
def heap0 : RegistryHeap := ⟨[({"a"} : Finset String)], 0⟩

-- ======================================================================
-- Theorems
-- ======================================================================

/-- C1.  The source of `subscriber_info` lacks the `return` before the 403
response (`multi_tenant.py:139`), so a caller whose resolved identity belongs
to a tenant other than the bootstrap tenant still receives HTTP 200 with the
full subscriber list — tenant_id, base_url and num_devices included —
contradicting both the claim and the handler docstring. -/
theorem c1_subscribers_leak_to_non_provider :
    (∃ c, envC1.get_user_instance req0 = Except.ok c ∧
      c.tenant_id ≠ envC1.bootstrap.tenant_id) ∧
    subscriber_info envC1 req0 =
      Except.ok (200, Json.obj [("subscribers", Json.arr
        [Json.obj [("tenant_id", Json.str "t-sub"),
                   ("base_url", Json.str "https://sub.example.com"),
                   ("num_devices", Json.num 1)]])]) :=
  ⟨⟨otherUser, rfl, by decide⟩, rfl⟩

/-- C2 counterexample.  With subscribed tenants `["tA", "tB"]` and a failure
obtaining the client of `tA`, one tick of `process_subscribers` stops at
`tA`: the error propagates out of the loop body and `tB` is never processed,
refuting the claim that the remaining tenants of the tick are still
processed. -/
theorem c2_counterexample :
    "tB" ∈ envC2.subscribed_tenants ∧
    process_subscribers envC2 = ([LogEntry.processing "tA"], some "network") ∧
    LogEntry.processing "tB" ∉ (process_subscribers envC2).1 :=
  ⟨by decide, rfl, by decide⟩

/-- C4.  The `/user` handler of `simple_tenant.py` resolves the caller's
user instance (`user_c8y`) but then builds the response from the
module-level service client `c8y`: at a request resolving to user `alice`,
the body carries the service identity's username and inventory, not the
resolved client's, contradicting the claim and the handler docstring. -/
theorem c4_user_endpoint_serves_service_identity :
    envC4.get_user_instance req0 = Except.ok aliceClient ∧
    aliceClient.username = "alice" ∧
    envC4.c8y.username = "service-user" ∧
    SimpleTenant.user_info envC4 req0 =
      Except.ok (200, Json.obj [("username", Json.str "service-user"),
        ("devices", Json.arr [Json.obj [("name", Json.str "sd"),
                                        ("id", Json.str "9"),
                                        ("type", Json.str "gateway")]])]) ∧
    aliceClient.username ≠ envC4.c8y.username ∧
    aliceClient.device_inventory.get_all = Except.ok [d1] ∧
    d1 ≠ (⟨"sd", "9", "gateway"⟩ : Device) :=
  ⟨rfl, rfl, rfl, rfl, by decide, rfl, by decide⟩

/-- C5.  Whenever the caller's credentials resolve to a tenant instance `c`
for tenant `T` and the device fetch succeeds with inventory `ds`, the
`/tenant` handler returns 200 with `tenant.tenant_id = T` and a devices
array that is exactly the `{name, id, type}` rendering of `ds`, element for
element. -/
theorem c5_tenant_info_matches_resolved_tenant (env : MTEnv) (req : Request)
    (c : Client) (T : String) (ds : List Device)
    (hres : env.get_tenant_instance_by_request req = Except.ok c)
    (hT : c.tenant_id = T)
    (hds : c.device_inventory.get_all = Except.ok ds) :
    tenant_info env req =
      Except.ok (200, Json.obj
        [("tenant", Json.obj [("tenant_id", Json.str T),
                              ("base_url", Json.str c.base_url),
                              ("username", Json.str c.username)]),
         ("devices", Json.arr (ds.map deviceJson))]) := by
  subst hT
  unfold tenant_info
  rw [hres]
  simp only [hds]

/-- Witness for C5: the spec's mock inventory `[{name:"d1", id:"1",
type:"thermostat"}]` is returned exactly as that array for tenant `t42`. -/
theorem c5_tenant_info_matches_resolved_tenant_witness :
    tenant_info envC5 req0 =
      Except.ok (200, Json.obj
        [("tenant", Json.obj [("tenant_id", Json.str "t42"),
                              ("base_url", Json.str "https://t42.example.com"),
                              ("username", Json.str "jdoe")]),
         ("devices", Json.arr [Json.obj [("name", Json.str "d1"),
                                         ("id", Json.str "1"),
                                         ("type", Json.str "thermostat")]])]) :=
  c5_tenant_info_matches_resolved_tenant envC5 req0
    ⟨"t42", "https://t42.example.com", "jdoe", invOk [d1]⟩ "t42" [d1] rfl rfl rfl

/-- C6.  `add_subscriber` and `remove_subscriber` are idempotent: adding the
same tenant twice equals adding it once (so the registry size is stable on
the second application), removing a tenant not in the registry leaves it
unchanged, and removing twice equals removing once. -/
theorem c6_registry_operations_idempotent (S : Finset String) (t : String) :
    add_subscriber (add_subscriber S t) t = add_subscriber S t ∧
    (add_subscriber (add_subscriber S t) t).card = (add_subscriber S t).card ∧
    (t ∉ S → remove_subscriber S t = S) ∧
    remove_subscriber (remove_subscriber S t) t = remove_subscriber S t := by
  refine ⟨?_, ?_, ?_, ?_⟩
  · simp [add_subscriber, Finset.union_assoc]
  · simp [add_subscriber, Finset.union_assoc]
  · intro h
    ext a
    simp only [remove_subscriber, Finset.mem_sdiff, Finset.mem_singleton]
    constructor
    · exact fun ha => ha.1
    · intro ha
      refine ⟨ha, ?_⟩
      rintro rfl
      exact h ha
  · ext a
    simp only [remove_subscriber, Finset.mem_sdiff, Finset.mem_singleton]
    tauto

/-- Witness for C6 at `S = {"x"}`, `t = "y"`. -/
theorem c6_registry_operations_idempotent_witness :
    add_subscriber (add_subscriber {"x"} "y") "y" = add_subscriber {"x"} "y" ∧
    (add_subscriber (add_subscriber {"x"} "y") "y").card =
      (add_subscriber {"x"} "y").card ∧
    remove_subscriber ({"x"} : Finset String) "y" = {"x"} ∧
    remove_subscriber (remove_subscriber {"x"} "y") "y" =
      remove_subscriber {"x"} "y" := by
  have h := c6_registry_operations_idempotent {"x"} "y"
  exact ⟨h.1, h.2.1, h.2.2.1 (by decide), h.2.2.2⟩

/-- C9.  `assert_name` accepts `"ab_cd"`, which contains an underscore (code
point 95): the pattern `[a-zA-Z]+[a-zA-Z0-9\-]+` is applied with `re.match`,
anchored at the start of the string only, so the prefix `ab` already
matches even though the underscore is in no character class of the
pattern. -/
theorem c9_assert_name_accepts_underscore :
    assert_name "ab_cd" = Except.ok () ∧
    Char.ofNat 95 ∈ "ab_cd".data ∧
    isNameTailChar (Char.ofNat 95) = false :=
  ⟨rfl, by decide, rfl⟩

/-- Helper: a tick's loop stops at a head tenant whose resolution fails. -/
theorem process_loop_fails_head (env : MTEnv) (t e : String) (post : List String)
    (ht : tenantResult env t = Except.error e) :
    process_subscribers_loop env (t :: post) = ([LogEntry.processing t], some e) := by
  cases h : env.get_tenant_instance_by_id t with
  | error e2 =>
      simp only [tenantResult, h] at ht
      injection ht with h2
      simp only [process_subscribers_loop, h, h2]
  | ok c =>
      simp only [tenantResult, h] at ht
      simp only [process_subscribers_loop, h, ht]

/-- Helper: a tick's loop on a healthy head tenant logs it and recurses. -/
theorem process_loop_ok_head (env : MTEnv) (t : String) (n : Nat) (rest : List String)
    (ht : tenantResult env t = Except.ok n) :
    process_subscribers_loop env (t :: rest) =
      (LogEntry.processing t :: LogEntry.deviceCount t n ::
         (process_subscribers_loop env rest).1,
       (process_subscribers_loop env rest).2) := by
  cases h : env.get_tenant_instance_by_id t with
  | error e2 =>
      simp only [tenantResult, h] at ht
      exact absurd ht (by simp)
  | ok c =>
      simp only [tenantResult, h] at ht
      simp only [process_subscribers_loop, h, ht]

/-- Helper: a tick whose tenant list is healthy up to `t` and fails at `t`
propagates the error and logs nothing beyond `t`. -/
theorem process_loop_aborts (env : MTEnv) (t e : String) (post : List String)
    (ht : tenantResult env t = Except.error e) :
    ∀ pre : List String, (∀ u ∈ pre, ∃ n, tenantResult env u = Except.ok n) →
      ∃ log, process_subscribers_loop env (pre ++ t :: post) = (log, some e) ∧
        ∀ u, LogEntry.processing u ∈ log → u ∈ pre ∨ u = t := by
  intro pre
  induction pre with
  | nil =>
      intro _
      refine ⟨[LogEntry.processing t], ?_, ?_⟩
      · simpa using process_loop_fails_head env t e post ht
      · intro u hu
        simp only [List.mem_singleton, LogEntry.processing.injEq] at hu
        exact Or.inr hu
  | cons p pre ih =>
      intro hpre
      obtain ⟨n, hp⟩ := hpre p (List.mem_cons_self p pre)
      obtain ⟨log, hlog, hmem⟩ := ih (fun u hu => hpre u (List.mem_cons_of_mem p hu))
      refine ⟨LogEntry.processing p :: LogEntry.deviceCount p n :: log, ?_, ?_⟩
      · rw [List.cons_append, process_loop_ok_head env p n (pre ++ t :: post) hp, hlog]
      · intro u hu
        simp only [List.mem_cons, LogEntry.processing.injEq] at hu
        rcases hu with hu | hu | hu
        · exact Or.inl (hu ▸ List.mem_cons_self p pre)
        · cases hu
        · rcases hmem u hu with h | h
          · exact Or.inl (List.mem_cons_of_mem p h)
          · exact Or.inr h

/-- C2 (amended).  `process_subscribers` has no exception handling: when the
tenants processed before `t` are healthy and obtaining `t`'s client or its
device count raises error `e`, the tick stops at `t`: the error propagates
out of the tick and no tenant after `t` is processed (every logged
`processing` entry belongs to the healthy prefix or to `t` itself). -/
theorem c2_failure_aborts_tick (env : MTEnv) (pre post : List String) (t e : String)
    (henv : env.subscribed_tenants = pre ++ t :: post)
    (hpre : ∀ u ∈ pre, ∃ n, tenantResult env u = Except.ok n)
    (ht : tenantResult env t = Except.error e) :
    ∃ log, process_subscribers env = (log, some e) ∧
      ∀ u, LogEntry.processing u ∈ log → u ∈ pre ∨ u = t := by
  unfold process_subscribers
  rw [henv]
  exact process_loop_aborts env t e post ht pre hpre

/-- Witness for C2 (amended): in `envC2` the failure at `tA` aborts the tick
before `tB`. -/
theorem c2_failure_aborts_tick_witness :
    ∃ log, process_subscribers envC2 = (log, some "network") ∧
      ∀ u, LogEntry.processing u ∈ log → u ∈ ([] : List String) ∨ u = "tA" :=
  c2_failure_aborts_tick envC2 [] ["tB"] "tA" "network" rfl
    (fun u hu => absurd hu (List.not_mem_nil u)) rfl

/-- Helper: dispatching `add_subscriber` over a list of tenants unions their
set into the registry. -/
theorem foldl_add_subscriber (l : List String) (r : Finset String) :
    l.foldl add_subscriber r = r ∪ l.toFinset := by
  induction l generalizing r with
  | nil => simp
  | cons t ts ih =>
      rw [List.foldl_cons, ih]
      ext a
      simp only [add_subscriber, Finset.mem_union, Finset.mem_singleton,
        List.toFinset_cons, Finset.mem_insert, List.mem_toFinset]
      tauto

/-- Helper: dispatching `remove_subscriber` over a list of tenants deletes
their set from the registry. -/
theorem foldl_remove_subscriber (l : List String) (r : Finset String) :
    l.foldl remove_subscriber r = r \ l.toFinset := by
  induction l generalizing r with
  | nil => simp
  | cons t ts ih =>
      rw [List.foldl_cons, ih]
      ext a
      simp only [remove_subscriber, Finset.mem_sdiff, Finset.mem_singleton,
        List.toFinset_cons, Finset.mem_insert, List.mem_toFinset]
      tauto

/-- Helper: when the registry equals the previous poll's set, one listener
poll makes it equal the new poll's set. -/
theorem listener_step_sync (prev poll : List String) :
    listener_step (prev, prev.toFinset) poll = (poll, poll.toFinset) := by
  unfold listener_step
  simp only [Prod.mk.injEq, true_and]
  rw [foldl_add_subscriber, foldl_remove_subscriber]
  ext a
  simp only [Finset.mem_sdiff, Finset.mem_union, List.mem_toFinset, List.mem_filter,
    decide_eq_true_eq]
  constructor
  · rintro ⟨hin, hout⟩
    rcases hin with h | h
    · by_cases hp : a ∈ poll
      · exact hp
      · exact absurd ⟨h, hp⟩ hout
    · exact h.1
  · intro hp
    by_cases hprev : a ∈ prev
    · exact ⟨Or.inl hprev, fun h => h.2 hp⟩
    · exact ⟨Or.inr ⟨hp, hprev⟩, fun h => hprev h.1⟩

/-- Helper: a run of polls ends synchronized with the last poll, from any
synchronized start state. -/
theorem run_polls_from_sync (polls : List (List String)) (last : List String) :
    ∀ prev : List String,
      (polls ++ [last]).foldl listener_step (prev, prev.toFinset) =
        (last, last.toFinset) := by
  induction polls with
  | nil =>
      intro prev
      rw [List.nil_append, List.foldl_cons, List.foldl_nil, listener_step_sync]
  | cons p ps ih =>
      intro prev
      rw [List.cons_append, List.foldl_cons, listener_step_sync]
      exact ih p

/-- C3.  Starting from the empty registry and dispatching the diff-driven
callbacks poll after poll, the registry after the last poll equals exactly
the set of tenants present in that poll, whatever the history was (so poll
sequence `[{A,B}, {B,C}]` ends with registry `{B,C}`). -/
theorem c3_registry_equals_last_poll (polls : List (List String)) (last : List String) :
    (run_polls (polls ++ [last])).2 = last.toFinset := by
  unfold run_polls
  rw [show ((([] : List String), (∅ : Finset String)) :
        List String × Finset String) = (([] : List String), ([] : List String).toFinset)
      from rfl,
    run_polls_from_sync polls last []]

/-- C7.  Both registry mutations allocate a fresh set object and rebind the
global reference to it: every reference valid before the mutation still
denotes exactly the pre-mutation set afterwards, the rebound reference is
fresh (distinct from every pre-existing reference), and the new object holds
the whole updated set. -/
theorem c7_mutations_rebind_fresh_object (h : RegistryHeap) (t : String) (i : Nat)
    (hi : i < h.cells.length) :
    (heap_add_subscriber h t).cells.getD i ∅ = h.cells.getD i ∅ ∧
    (heap_remove_subscriber h t).cells.getD i ∅ = h.cells.getD i ∅ ∧
    (heap_add_subscriber h t).current = h.cells.length ∧
    (heap_remove_subscriber h t).current = h.cells.length ∧
    i ≠ (heap_add_subscriber h t).current ∧
    i ≠ (heap_remove_subscriber h t).current ∧
    (heap_add_subscriber h t).cells.getD (heap_add_subscriber h t).current ∅ =
      add_subscriber (h.cells.getD h.current ∅) t ∧
    (heap_remove_subscriber h t).cells.getD (heap_remove_subscriber h t).current ∅ =
      remove_subscriber (h.cells.getD h.current ∅) t := by
  refine ⟨?_, ?_, rfl, rfl, ?_, ?_, ?_, ?_⟩
  · exact List.getD_append _ _ _ _ hi
  · exact List.getD_append _ _ _ _ hi
  · exact Nat.ne_of_lt hi
  · exact Nat.ne_of_lt hi
  · show (h.cells ++ [add_subscriber (h.cells.getD h.current ∅) t]).getD h.cells.length ∅ = _
    rw [List.getD_append_right _ _ _ _ (le_refl _), Nat.sub_self]
    rfl
  · show (h.cells ++ [remove_subscriber (h.cells.getD h.current ∅) t]).getD h.cells.length ∅ = _
    rw [List.getD_append_right _ _ _ _ (le_refl _), Nat.sub_self]
    rfl

/-- Witness for C7 at a one-cell heap. -/
theorem c7_mutations_rebind_fresh_object_witness :
    (heap_add_subscriber heap0 "b").cells.getD 0 ∅ = heap0.cells.getD 0 ∅ ∧
    (heap_remove_subscriber heap0 "b").cells.getD 0 ∅ = heap0.cells.getD 0 ∅ ∧
    (heap_add_subscriber heap0 "b").current = heap0.cells.length ∧
    (heap_remove_subscriber heap0 "b").current = heap0.cells.length ∧
    0 ≠ (heap_add_subscriber heap0 "b").current ∧
    0 ≠ (heap_remove_subscriber heap0 "b").current ∧
    (heap_add_subscriber heap0 "b").cells.getD (heap_add_subscriber heap0 "b").current ∅ =
      add_subscriber (heap0.cells.getD heap0.current ∅) "b" ∧
    (heap_remove_subscriber heap0 "b").cells.getD
        (heap_remove_subscriber heap0 "b").current ∅ =
      remove_subscriber (heap0.cells.getD heap0.current ∅) "b" :=
  c7_mutations_rebind_fresh_object heap0 "b" 0 (by decide)

/-- Helper: newline count distributes over string append. -/
theorem countNewlines_append (a b : String) :
    countNewlines (a ++ b) = countNewlines a + countNewlines b := by
  unfold countNewlines
  rw [String.data_append, List.count_append]

/-- Helper literal merge for the first line's key. -/
theorem merge_key_baseurl (x : String) :
    "C8Y_BASEURL" ++ ("=" ++ x) = "C8Y_BASEURL=" ++ x := by
  rw [← String.append_assoc]
  rfl

/-- Helper literal merge for the tenant line's key. -/
theorem merge_key_tenant (x : String) :
    "TENANT" ++ ("=" ++ x) = "TENANT=" ++ x := by
  rw [← String.append_assoc]
  rfl

/-- Helper literal merge for the user line's key. -/
theorem merge_key_user (x : String) :
    "USER" ++ ("=" ++ x) = "USER=" ++ x := by
  rw [← String.append_assoc]
  rfl

/-- Helper literal merge for the password line's key. -/
theorem merge_key_password (x : String) :
    "PASSWORD" ++ ("=" ++ x) = "PASSWORD=" ++ x := by
  rw [← String.append_assoc]
  rfl

/-- C8 counterexample.  A credential value may itself contain a newline (no
quoting or escaping is applied), and then the written file does not consist
of exactly four `KEY=VALUE` lines: with a two-line password the content
holds five newlines and no four-line decomposition exists. -/
theorem c8_counterexample :
    countNewlines (write_env_content "PER_TENANT" "https://x.example.com" "t5" "u5"
        ("p5" ++ "\n" ++ "q5")) = 5 ∧
    ¬ ∃ k1 k2 k3 k4, FourEnvLines k1 "https://x.example.com" k2 "t5" k3 "u5" k4
        ("p5" ++ "\n" ++ "q5")
        (write_env_content "PER_TENANT" "https://x.example.com" "t5" "u5"
          ("p5" ++ "\n" ++ "q5")) := by
  constructor
  · rfl
  · rintro ⟨k1, k2, k3, k4, -, -, -, -, hc4⟩
    simp only [countNewlines_append] at hc4
    have hnl : countNewlines "\n" = 1 := rfl
    rw [hnl] at hc4
    omega

/-- C8 (amended).  The file written by `write_env` is UTF-8 encoded, and,
provided none of the four credential values contains a newline character,
its content consists of exactly four newline-terminated `KEY=VALUE` lines
with each value inserted verbatim (no quoting or escaping). -/
theorem c8_write_env_four_lines (isolation base_url tenant user password : String)
    (h1 : countNewlines base_url = 0) (h2 : countNewlines tenant = 0)
    (h3 : countNewlines user = 0) (h4 : countNewlines password = 0) :
    write_env_encoding = "UTF-8" ∧
    ∃ k1 k2 k3 k4, FourEnvLines k1 base_url k2 tenant k3 user k4 password
      (write_env_content isolation base_url tenant user password) := by
  have hb : countNewlines (if isolation = "MULTI_TENANT" then "BOOTSTRAP_" else "") = 0 := by
    by_cases hI : isolation = "MULTI_TENANT"
    · rw [if_pos hI]
      rfl
    · rw [if_neg hI]
      rfl
  refine ⟨rfl, "C8Y_BASEURL",
    "C8Y_" ++ (if isolation = "MULTI_TENANT" then "BOOTSTRAP_" else "") ++ "TENANT",
    "C8Y_" ++ (if isolation = "MULTI_TENANT" then "BOOTSTRAP_" else "") ++ "USER",
    "C8Y_" ++ (if isolation = "MULTI_TENANT" then "BOOTSTRAP_" else "") ++ "PASSWORD",
    ?_, ?_, ?_, ?_, ?_⟩
  · simp only [write_env_content, String.append_assoc, merge_key_baseurl,
      merge_key_tenant, merge_key_user, merge_key_password]
  · simp only [countNewlines_append, h1]
    decide
  · simp only [countNewlines_append, h2, hb]
    decide
  · simp only [countNewlines_append, h3, hb]
    decide
  · simp only [countNewlines_append, h4, hb]
    decide

/-- Witness for C8 (amended) at concrete newline-free credentials. -/
theorem c8_write_env_four_lines_witness :
    write_env_encoding = "UTF-8" ∧
    ∃ k1 k2 k3 k4, FourEnvLines k1 "https://x.example.com" k2 "t9" k3 "u9" k4 "p9"
      (write_env_content "MULTI_TENANT" "https://x.example.com" "t9" "u9" "p9") :=
  c8_write_env_four_lines "MULTI_TENANT" "https://x.example.com" "t9" "u9" "p9"
    rfl rfl rfl rfl

/-- C10.  The `/events/<device_id>` handler returns 404 with body
`{error: "No such device: <id>"}` when the inventory lookup raises
`KeyError`, in which case the events API is never queried; on a successful
lookup it returns 200 with the device's events rendered as
`{datetime, type, text}` objects. -/
theorem c10_event_info_behaviour (env : STEnv) (device_id : String) :
    (env.inventory_get device_id = none →
      SimpleTenant.event_info env device_id =
        ((404, Json.obj [("error", Json.str ("No such device: " ++ device_id))]),
         [ApiCall.inventoryGet device_id]) ∧
      ApiCall.eventsGetAll device_id ∉ (SimpleTenant.event_info env device_id).2) ∧
    (∀ d, env.inventory_get device_id = some d →
      SimpleTenant.event_info env device_id =
        ((200, Json.obj [("events", Json.arr ((env.events_get_all device_id).map fun e =>
            Json.obj [("datetime", Json.str e.datetime), ("type", Json.str e.type),
                      ("text", Json.str e.text)]))]),
         [ApiCall.inventoryGet device_id, ApiCall.eventsGetAll device_id])) := by
  constructor
  · intro h
    have heq : SimpleTenant.event_info env device_id =
        ((404, Json.obj [("error", Json.str ("No such device: " ++ device_id))]),
         [ApiCall.inventoryGet device_id]) := by
      unfold SimpleTenant.event_info
      rw [h]
    refine ⟨heq, ?_⟩
    rw [heq]
    simp
  · intro d h
    unfold SimpleTenant.event_info
    rw [h]

/-- Witness for C10: the 404 branch at a missing device and the 200 branch
at an existing one. -/
theorem c10_event_info_behaviour_witness :
    (SimpleTenant.event_info env404 "x9" =
       ((404, Json.obj [("error", Json.str ("No such device: " ++ "x9"))]),
        [ApiCall.inventoryGet "x9"]) ∧
     ApiCall.eventsGetAll "x9" ∉ (SimpleTenant.event_info env404 "x9").2) ∧
    SimpleTenant.event_info envC10 "1" =
      ((200, Json.obj [("events", Json.arr ((envC10.events_get_all "1").map fun e =>
          Json.obj [("datetime", Json.str e.datetime), ("type", Json.str e.type),
                    ("text", Json.str e.text)]))]),
       [ApiCall.inventoryGet "1", ApiCall.eventsGetAll "1"]) :=
  ⟨(c10_event_info_behaviour env404 "x9").1 rfl,
   (c10_event_info_behaviour envC10 "1").2 d1 rfl⟩
